import Mathlib

/-!
# Behavioral Monitoring & Risk-Scoring Engine — verification

Shallow embedding of the OAPS monitoring core:
* the angle-based gaze classifier (`lib/ai/gaze-tracker.ts`),
* the gaze state machine, face-absence tracker and time-quality accumulator
  (the `aiLoop` callback of the `useMonitoring` hook),
* the object-detection filter and per-label cooldown loop,
* the saturated risk calculator (`lib/utils/risk-calculator.ts`),
* the metrics aggregator (`lib/utils/metrics-aggregator.ts`).

Timestamps and durations are milliseconds, embedded as `ℤ` (JS numbers hold
integer millisecond values in this code).  Confidences, angles and scores are
embedded as `ℚ`; the JS `NaN` value, which matters only through comparisons,
is embedded by an explicit `JSNum.nan` constructor whose every comparison is
false, exactly as in IEEE-754 / JS.
-/

-- ═══════════════════════ Shared constants (lib/utils/constants.ts) ═════════

def SUSTAIN_DURATION_MS : ℤ := 2500

def GAZE_COOLDOWN_MS : ℤ := 5000

def MIN_FACE_CONFIDENCE : ℚ := 6/10

def FACE_ABSENCE_SUSTAIN_MS : ℤ := 2500

def FACE_ABSENCE_COOLDOWN_MS : ℤ := 5000

def MAX_YAW_NORMAL : ℚ := 18

def MAX_PITCH_NORMAL : ℚ := 22

def STRONG_YAW_DEG : ℚ := 25

def STRONG_PITCH_UP_DEG : ℚ := 30

def STRONG_PITCH_DOWN_DEG : ℚ := 35

def CENTERED_SUSTAIN_DURATION_MS : ℤ := 3500

def OBJECT_DETECTION_COOLDOWN_MS : ℤ := 5000

def CONFIDENCE_THRESHOLD : ℚ := 65/100

/-- Labels from COCO-SSD considered prohibited (constants.ts
`PROHIBITED_LABELS`); the source stores them in a `ReadonlySet`. -/
def PROHIBITED_LABELS : List String :=
  ["cell phone", "book", "laptop", "remote", "keyboard", "mouse", "tablet",
   "paper", "notepad"]

-- ═══════════════════════ JS numbers with NaN ═══════════════════════════════

/-- A JS `number` as it matters to the monitoring core: either `NaN` or an
ordinary (rational) value.  Comparisons with `NaN` are false in JS. -/
inductive JSNum
  | nan
  | val (q : ℚ)
  deriving DecidableEq

/-- JS `<` against a rational constant: false whenever the left side is NaN. -/
def JSNum.ltQ : JSNum → ℚ → Bool
  | .nan, _ => false
  | .val q, c => decide (q < c)

-- ═══════════════════════ Gaze classifier (lib/ai/gaze-tracker.ts) ══════════

/-- `isInSafeZone` from gaze-tracker.ts:
`Math.abs(yawDeg) <= MAX_YAW_NORMAL && Math.abs(pitchDeg) <= MAX_PITCH_NORMAL`. -/
def isInSafeZone (yawDeg pitchDeg : ℚ) : Bool :=
  decide (|yawDeg| ≤ MAX_YAW_NORMAL) && decide (|pitchDeg| ≤ MAX_PITCH_NORMAL)

/-- `isStrongDeviationCheck` from gaze-tracker.ts, kept as the source's
early-return chain. -/
def isStrongDeviationCheck (yawDeg pitchDeg : ℚ) : Bool :=
  if |yawDeg| > STRONG_YAW_DEG then true
  else if pitchDeg < -STRONG_PITCH_UP_DEG then true
  else if pitchDeg > STRONG_PITCH_DOWN_DEG then true
  else false

-- ═══════════════════════ Measurements (GazeResult) ═════════════════════════

/-- The fields of a `GazeResult` consumed by the `aiLoop` state machine. -/
structure GazeResult where
  faceDetected : Bool
  faceDetectionConfidence : JSNum
  inSafeZone : Bool
  isStrongDeviation : Bool
  isCentered : Bool
  deriving DecidableEq

/-- A face-present `GazeResult` as produced by `runGazeInference`: the
classification flags are computed by the classifier from the estimated
angles (`inSafeZone := isInSafeZone(yaw, pitch)` etc.). -/
def measurementOf (fd : Bool) (conf : JSNum) (yawDeg pitchDeg : ℚ)
    (centered : Bool) : GazeResult :=
  { faceDetected := fd
    faceDetectionConfidence := conf
    inSafeZone := isInSafeZone yawDeg pitchDeg
    isStrongDeviation := isStrongDeviationCheck yawDeg pitchDeg
    isCentered := centered }

-- ═══════════════════════ Risk calculator (lib/utils/risk-calculator.ts) ════

inductive RiskLevel
  | Low
  | Medium
  | High
  deriving DecidableEq

structure RiskWeight where
  weight : ℕ
  cap : ℕ

structure RiskWeights where
  gazeDeviation : RiskWeight
  faceAbsence : RiskWeight
  objectDetection : RiskWeight
  tabSwitch : RiskWeight

/-- `RISK_WEIGHTS` from constants.ts. -/
def RISK_WEIGHTS : RiskWeights :=
  { gazeDeviation := ⟨8, 5⟩
    faceAbsence := ⟨15, 3⟩
    objectDetection := ⟨20, 3⟩
    tabSwitch := ⟨6, 5⟩ }

def RISK_THRESHOLDS_medium : ℕ := 35

def RISK_THRESHOLDS_high : ℕ := 70

/-- `RiskInput`: the four event counts (integers, obtained as lengths of
filtered event lists) plus the session duration. -/
structure RiskInput where
  gazeDeviationCount : ℕ
  faceAbsenceCount : ℕ
  objectDetectionCount : ℕ
  tabSwitchCount : ℕ
  sessionDurationMs : ℚ
  deriving DecidableEq

structure RiskOutput where
  score : ℕ
  level : RiskLevel
  deriving DecidableEq

/-- The intermediate `raw` sum of `calculateRiskScore`:
`min(count, cap) × weight` summed over the four categories. -/
def rawRiskScore (input : RiskInput) : ℕ :=
  min input.gazeDeviationCount RISK_WEIGHTS.gazeDeviation.cap *
      RISK_WEIGHTS.gazeDeviation.weight +
    min input.faceAbsenceCount RISK_WEIGHTS.faceAbsence.cap *
      RISK_WEIGHTS.faceAbsence.weight +
    min input.objectDetectionCount RISK_WEIGHTS.objectDetection.cap *
      RISK_WEIGHTS.objectDetection.weight +
    min input.tabSwitchCount RISK_WEIGHTS.tabSwitch.cap *
      RISK_WEIGHTS.tabSwitch.weight

/-- `calculateRiskScore` from risk-calculator.ts.  The source applies
`Math.round` to `raw`; on integer counts `raw` is already an integer, so the
rounding is the identity and the clamp `min(100, max(0, raw))` remains. -/
def calculateRiskScore (input : RiskInput) : RiskOutput :=
  let raw := rawRiskScore input
  let score := min 100 (max 0 raw)
  let level : RiskLevel :=
    if score ≥ RISK_THRESHOLDS_high then .High
    else if score ≥ RISK_THRESHOLDS_medium then .Medium
    else .Low
  { score := score, level := level }

-- ═══════════════════════ C3 / C4 theorems ══════════════════════════════════

/-- Claim C3 — For every `RiskInput`, `calculateRiskScore` returns an integer
score with `0 ≤ score ≤ 100`, is deterministic, and the level is `High` iff
`score ≥ 70`, `Medium` iff `35 ≤ score < 70`, and `Low` otherwise. -/
theorem calculateRiskScore_bounded_deterministic_levels (input : RiskInput) :
    0 ≤ (calculateRiskScore input).score
    ∧ (calculateRiskScore input).score ≤ 100
    ∧ calculateRiskScore input = calculateRiskScore input
    ∧ ((calculateRiskScore input).level = .High ↔
        70 ≤ (calculateRiskScore input).score)
    ∧ ((calculateRiskScore input).level = .Medium ↔
        35 ≤ (calculateRiskScore input).score ∧
          (calculateRiskScore input).score < 70)
    ∧ ((calculateRiskScore input).level = .Low ↔
        (calculateRiskScore input).score < 35) := by
  refine ⟨Nat.zero_le _, ?_, rfl, ?_, ?_, ?_⟩
  · simp [calculateRiskScore]
  all_goals
    simp only [calculateRiskScore, RISK_THRESHOLDS_high, RISK_THRESHOLDS_medium]
    split_ifs with h1 h2 <;> simp_all <;> omega

lemma calculateRiskScore_congr (a b : RiskInput)
    (h : rawRiskScore a = rawRiskScore b) :
    calculateRiskScore a = calculateRiskScore b := by
  simp [calculateRiskScore, h]

/-- Claim C4 — Cap saturation and clamping: each category contributes
`min(count, cap) × weight`; a gaze count of 100 scores the same as 5, raising
any count beyond its cap never changes the score, and the all-maxed input
yields exactly 100 although the capped raw sum is 175. -/
theorem riskScore_cap_saturation :
    (∀ (f o tb : ℕ) (d : ℚ),
      calculateRiskScore ⟨100, f, o, tb, d⟩ = calculateRiskScore ⟨5, f, o, tb, d⟩)
    ∧ (∀ input : RiskInput, 5 ≤ input.gazeDeviationCount →
        calculateRiskScore input
          = calculateRiskScore { input with gazeDeviationCount := 5 })
    ∧ (∀ input : RiskInput, 3 ≤ input.faceAbsenceCount →
        calculateRiskScore input
          = calculateRiskScore { input with faceAbsenceCount := 3 })
    ∧ (∀ input : RiskInput, 3 ≤ input.objectDetectionCount →
        calculateRiskScore input
          = calculateRiskScore { input with objectDetectionCount := 3 })
    ∧ (∀ input : RiskInput, 5 ≤ input.tabSwitchCount →
        calculateRiskScore input
          = calculateRiskScore { input with tabSwitchCount := 5 })
    ∧ (∀ d : ℚ, (calculateRiskScore ⟨100, 100, 100, 100, d⟩).score = 100)
    ∧ (∀ d : ℚ, rawRiskScore ⟨100, 100, 100, 100, d⟩ = 175) := by
  refine ⟨fun f o tb d => rfl, ?_, ?_, ?_, ?_, fun d => rfl, fun d => rfl⟩
  all_goals
    intro input h
    refine calculateRiskScore_congr _ _ ?_
    simp only [rawRiskScore, RISK_WEIGHTS]
    omega

/-- Witness for C4 at a concrete input: a gaze count of 7 (beyond the cap 5)
scores the same as a gaze count of 5. -/
theorem riskScore_cap_saturation_witness :
    calculateRiskScore ⟨7, 1, 0, 2, 60000⟩
      = calculateRiskScore ⟨5, 1, 0, 2, 60000⟩ := by
  exact riskScore_cap_saturation.2.1 ⟨7, 1, 0, 2, 60000⟩ (by decide)

-- ═══════════════════════ Gaze / absence state machine (aiLoop) ═════════════

/-- `GazeState` of the monitoring hook. -/
inductive GazeState
  | NORMAL
  | MONITORING_DEVIATION
  | ALERT_ACTIVE
  | ABSENT
  deriving DecidableEq

/-- The mutable refs of `useMonitoring` that the `aiLoop` gaze branch reads
and writes on a measurement tick. -/
structure MonitorState where
  gazeState : GazeState
  deviationStart : Option ℤ
  lastGazeAlertTime : ℤ
  absenceStart : Option ℤ
  lastFaceAbsentTime : ℤ
  isFaceAbsentLogged : Bool
  tqFocused : ℤ
  tqMinor : ℤ
  tqDeviation : ℤ
  tqAbsence : ℤ
  longestGazeAway : ℤ
  deriving DecidableEq

/-- The refs' values at session start (and after the session-end reset). -/
def initialMonitorState : MonitorState :=
  { gazeState := .NORMAL
    deviationStart := none
    lastGazeAlertTime := 0
    absenceStart := none
    lastFaceAbsentTime := 0
    isFaceAbsentLogged := false
    tqFocused := 0
    tqMinor := 0
    tqDeviation := 0
    tqAbsence := 0
    longestGazeAway := 0 }

/-- Events a gaze-branch tick can append to the session log (only the fields
the claims are about; the remaining metadata is carried verbatim). -/
inductive TickEvent
  | gazeAway (durationMs : ℤ)
  | faceAbsent (durationMs : ℤ)
  deriving DecidableEq

/-- The source's face-absence test for a tick:
`!result.faceDetected || result.faceDetectionConfidence < MIN_FACE_CONFIDENCE`. -/
def isAbsentResult (r : GazeResult) : Bool :=
  !r.faceDetected || r.faceDetectionConfidence.ltQ MIN_FACE_CONFIDENCE

/-- `if (!absenceStartRef.current) absenceStartRef.current = frameNow` —
JS truthiness: both `null` and `0` are falsy and get overwritten. -/
def absenceStartOr (cur : Option ℤ) (frameNow : ℤ) : ℤ :=
  match cur with
  | none => frameNow
  | some t => if t = 0 then frameNow else t

/-- The face-absent branch of `aiLoop`: start/extend the absence episode,
emit at most one `FACE_ABSENT` per episode under sustain + cooldown, add the
frame delta to the absence bucket, degrade the gaze state to `ABSENT`. -/
def absentTick (s : MonitorState) (frameNow deltaMs : ℤ) :
    MonitorState × List TickEvent :=
  let aStart := absenceStartOr s.absenceStart frameNow
  let absenceDuration := frameNow - aStart
  if absenceDuration ≥ FACE_ABSENCE_SUSTAIN_MS ∧ s.isFaceAbsentLogged = false ∧
      frameNow - s.lastFaceAbsentTime ≥ FACE_ABSENCE_COOLDOWN_MS then
    ({ s with absenceStart := some aStart
              isFaceAbsentLogged := true
              lastFaceAbsentTime := frameNow
              tqAbsence := s.tqAbsence + deltaMs
              gazeState := .ABSENT },
     [TickEvent.faceAbsent absenceDuration])
  else
    ({ s with absenceStart := some aStart
              tqAbsence := s.tqAbsence + deltaMs
              gazeState := .ABSENT }, [])

/-- `const requiredSustain = result.isCentered ? CENTERED_SUSTAIN_DURATION_MS
: SUSTAIN_DURATION_MS` — a centered face gets the longer sustain. -/
def requiredSustainFor (isCentered : Bool) : ℤ :=
  if isCentered then CENTERED_SUSTAIN_DURATION_MS else SUSTAIN_DURATION_MS

/-- Gate 3 of the gaze state machine (strong deviation, face present): the
two sequential `if` statements of the source, then the sustain + cooldown
check, with the deviation bucket taking the frame delta in every case. -/
def gazeTickStrong (s : MonitorState) (isCentered : Bool)
    (frameNow deltaMs : ℤ) : MonitorState × List TickEvent :=
  let st1 := if s.gazeState = .NORMAL then GazeState.MONITORING_DEVIATION
             else s.gazeState
  let dev1 := if s.gazeState = .NORMAL then some frameNow else s.deviationStart
  if st1 = .MONITORING_DEVIATION then
    let sustained := frameNow - dev1.getD frameNow
    if sustained ≥ requiredSustainFor isCentered ∧
        frameNow - s.lastGazeAlertTime ≥ GAZE_COOLDOWN_MS then
      ({ s with gazeState := .ALERT_ACTIVE
                deviationStart := dev1
                lastGazeAlertTime := frameNow
                longestGazeAway :=
                  if sustained > s.longestGazeAway then sustained
                  else s.longestGazeAway
                tqDeviation := s.tqDeviation + deltaMs },
       [TickEvent.gazeAway sustained])
    else
      ({ s with gazeState := st1
                deviationStart := dev1
                tqDeviation := s.tqDeviation + deltaMs }, [])
  else
    ({ s with gazeState := st1
              deviationStart := dev1
              tqDeviation := s.tqDeviation + deltaMs }, [])

/-- The face-present branch of `aiLoop`: clear absence tracking, then the
three gates of the gaze state machine. -/
def presentGazeTick (s : MonitorState) (r : GazeResult)
    (frameNow deltaMs : ℤ) : MonitorState × List TickEvent :=
  let s1 := { s with absenceStart := (none : Option ℤ)
                     isFaceAbsentLogged := false }
  if r.inSafeZone then
    ({ s1 with gazeState := .NORMAL
               deviationStart := none
               tqFocused := s1.tqFocused + deltaMs }, [])
  else if !r.isStrongDeviation then
    ({ s1 with gazeState := .NORMAL
               deviationStart := none
               tqMinor := s1.tqMinor + deltaMs }, [])
  else
    gazeTickStrong s1 r.isCentered frameNow deltaMs

/-- One processed measurement tick of `aiLoop` (the gaze-inference branch):
face-absence tracking first, else the gaze state machine. -/
def gazeTick (s : MonitorState) (result : GazeResult)
    (frameNow deltaMs : ℤ) : MonitorState × List TickEvent :=
  if isAbsentResult result then absentTick s frameNow deltaMs
  else presentGazeTick s result frameNow deltaMs

/-- A sequence of processed ticks, each a `(measurement, frameNow, deltaMs)`
triple, with the emitted events collected in order. -/
def gazeRun (s : MonitorState) :
    List (GazeResult × ℤ × ℤ) → MonitorState × List TickEvent
  | [] => (s, [])
  | tick :: rest =>
      let step := gazeTick s tick.1 tick.2.1 tick.2.2
      let next := gazeRun step.1 rest
      (next.1, step.2 ++ next.2)

-- ═══════════════════════ Episode descriptions for the claims ═══════════════

/-- A face-present strong-deviation measurement (neither safe zone nor minor
movement), with the given centering flag. -/
def strongResult (isCentered : Bool) : GazeResult :=
  { faceDetected := true
    faceDetectionConfidence := .val 1
    inSafeZone := false
    isStrongDeviation := true
    isCentered := isCentered }

/-- An episode of consecutive strong-deviation ticks, given as
`(frameNow, isCentered)` pairs sharing one frame delta. -/
def strongTicks (deltaMs : ℤ) (tcs : List (ℤ × Bool)) :
    List (GazeResult × ℤ × ℤ) :=
  tcs.map (fun p => (strongResult p.2, p.1, deltaMs))

/-- The events the claim predicts for a strong-deviation episode: exactly one
`GazeAway` at the first tick whose sustained duration (tick time minus the
recorded deviation start `dStart`) reaches the required sustain while at
least `GAZE_COOLDOWN_MS` has passed since the last alert `lastAlert`, and
none anywhere else. -/
def episodeEmits (lastAlert dStart : ℤ) : List (ℤ × Bool) → List TickEvent
  | [] => []
  | (t, c) :: rest =>
      if t - dStart ≥ requiredSustainFor c ∧ t - lastAlert ≥ GAZE_COOLDOWN_MS
      then [TickEvent.gazeAway (t - dStart)]
      else episodeEmits lastAlert dStart rest

/-- A face-absent measurement (no face detected at all). -/
def absentResult : GazeResult :=
  { faceDetected := false
    faceDetectionConfidence := .val 0
    inSafeZone := false
    isStrongDeviation := false
    isCentered := false }

/-- The events the claim predicts for a continuous absence episode whose
first absent tick happened at `aStart`: one `FaceAbsent` at the first tick
where the absence has persisted `FACE_ABSENCE_SUSTAIN_MS` and the cooldown
since `lastEmit` has passed, none anywhere else. -/
def absenceEmits (lastEmit aStart : ℤ) : List ℤ → List TickEvent
  | [] => []
  | t :: rest =>
      if t - aStart ≥ FACE_ABSENCE_SUSTAIN_MS ∧
          t - lastEmit ≥ FACE_ABSENCE_COOLDOWN_MS
      then [TickEvent.faceAbsent (t - aStart)]
      else absenceEmits lastEmit aStart rest

-- ═══════════════════════ Branch lemmas for the gaze machine ════════════════

lemma gazeTick_strongResult (s : MonitorState) (c : Bool) (t δ : ℤ) :
    gazeTick s (strongResult c) t δ
      = gazeTickStrong
          { s with absenceStart := none, isFaceAbsentLogged := false } c t δ := by
  have h1 : isAbsentResult (strongResult c) = false := by
    simp [isAbsentResult, strongResult, JSNum.ltQ, MIN_FACE_CONFIDENCE]
    norm_num
  unfold gazeTick
  rw [h1]
  simp [presentGazeTick, strongResult]

lemma gazeTickStrong_MD (s : MonitorState) (c : Bool) (t δ d : ℤ)
    (h1 : s.gazeState = .MONITORING_DEVIATION) (h2 : s.deviationStart = some d) :
    gazeTickStrong s c t δ =
      if t - d ≥ requiredSustainFor c ∧
          t - s.lastGazeAlertTime ≥ GAZE_COOLDOWN_MS then
        ({ s with gazeState := .ALERT_ACTIVE
                  deviationStart := some d
                  lastGazeAlertTime := t
                  longestGazeAway :=
                    if t - d > s.longestGazeAway then t - d
                    else s.longestGazeAway
                  tqDeviation := s.tqDeviation + δ },
         [TickEvent.gazeAway (t - d)])
      else
        ({ s with gazeState := .MONITORING_DEVIATION
                  deviationStart := some d
                  tqDeviation := s.tqDeviation + δ }, []) := by
  simp [gazeTickStrong, h1, h2]

lemma gazeTickStrong_NORMAL (s : MonitorState) (c : Bool) (t δ : ℤ)
    (h : s.gazeState = .NORMAL) :
    gazeTickStrong s c t δ =
      ({ s with gazeState := .MONITORING_DEVIATION
                deviationStart := some t
                tqDeviation := s.tqDeviation + δ }, []) := by
  have hreq : ¬ ((0 : ℤ) ≥ requiredSustainFor c) := by
    cases c <;> decide
  simp [gazeTickStrong, h, hreq]

lemma gazeTickStrong_other (s : MonitorState) (c : Bool) (t δ : ℤ)
    (h1 : s.gazeState ≠ .NORMAL) (h2 : s.gazeState ≠ .MONITORING_DEVIATION) :
    gazeTickStrong s c t δ =
      ({ s with tqDeviation := s.tqDeviation + δ }, []) := by
  simp [gazeTickStrong, h1, h2]

lemma gazeRun_strong_ALERT (δ : ℤ) (tcs : List (ℤ × Bool)) :
    ∀ s : MonitorState, s.gazeState = .ALERT_ACTIVE →
      (gazeRun s (strongTicks δ tcs)).2 = []
      ∧ ((gazeRun s (strongTicks δ tcs)).1).gazeState = .ALERT_ACTIVE := by
  induction tcs with
  | nil => intro s h; simp [strongTicks, gazeRun, h]
  | cons tc rest ih =>
      obtain ⟨t, c⟩ := tc
      intro s h
      have hstep := gazeTick_strongResult s c t δ
      rw [gazeTickStrong_other _ _ _ _ (by simp [h]) (by simp [h])] at hstep
      simp only [strongTicks, List.map_cons] at *
      simp only [gazeRun, hstep]
      exact ih _ (by simp [h])

lemma episodeEmits_length_le_one (L d : ℤ) (l : List (ℤ × Bool)) :
    (episodeEmits L d l).length ≤ 1 := by
  induction l with
  | nil => simp [episodeEmits]
  | cons p rest ih =>
      obtain ⟨t, c⟩ := p
      simp only [episodeEmits]
      split_ifs <;> simp [ih]

lemma episodeEmits_cooldown (L d : ℤ) (l : List (ℤ × Bool))
    (h : ∀ p ∈ l, p.1 - L < GAZE_COOLDOWN_MS) :
    episodeEmits L d l = [] := by
  induction l with
  | nil => rfl
  | cons p rest ih =>
      obtain ⟨t, c⟩ := p
      have ht := h (t, c) (by simp)
      simp only [episodeEmits]
      rw [if_neg (by push_neg; intro _; omega)]
      exact ih fun q hq => h q (by simp [hq])

lemma gazeRun_strong_MD (δ d L : ℤ) (tcs : List (ℤ × Bool)) :
    ∀ s : MonitorState, s.gazeState = .MONITORING_DEVIATION →
      s.deviationStart = some d → s.lastGazeAlertTime = L →
      (gazeRun s (strongTicks δ tcs)).2 = episodeEmits L d tcs := by
  induction tcs with
  | nil => intro s h1 h2 h3; simp [strongTicks, gazeRun, episodeEmits]
  | cons tc rest ih =>
      obtain ⟨t, c⟩ := tc
      intro s h1 h2 h3
      have hstep := gazeTick_strongResult s c t δ
      rw [gazeTickStrong_MD _ c t δ d (by simp [h1]) (by simp [h2])] at hstep
      by_cases hc : t - d ≥ requiredSustainFor c ∧ t - L ≥ GAZE_COOLDOWN_MS
      · rw [if_pos (by simpa [h3] using hc)] at hstep
        have halert := gazeRun_strong_ALERT δ rest
          (gazeTick s (strongResult c) t δ).1 (by rw [hstep])
        have hev : (gazeTick s (strongResult c) t δ).2
            = [TickEvent.gazeAway (t - d)] := by rw [hstep]
        simp only [strongTicks, List.map_cons, gazeRun]
        simp only [strongTicks] at halert
        rw [hev, halert.1]
        simp [episodeEmits, hc]
      · rw [if_neg (by simpa [h3] using hc)] at hstep
        have hg : (gazeTick s (strongResult c) t δ).1.gazeState
            = .MONITORING_DEVIATION := by rw [hstep]
        have hd : (gazeTick s (strongResult c) t δ).1.deviationStart
            = some d := by rw [hstep]
        have hL : (gazeTick s (strongResult c) t δ).1.lastGazeAlertTime
            = L := by rw [hstep]; exact h3
        have hev : (gazeTick s (strongResult c) t δ).2 = [] := by rw [hstep]
        have hrest := ih _ hg hd hL
        simp only [strongTicks, List.map_cons, gazeRun]
        simp only [strongTicks] at hrest
        rw [hev, hrest]
        simp [episodeEmits, hc]

lemma requiredSustainFor_pos (c : Bool) : 0 < requiredSustainFor c := by
  cases c <;> decide

/-- Claim C1 — Gaze state machine emission discipline.  For an episode of
consecutive strong-deviation face-present ticks that begins in `NORMAL`:
the emitted events are exactly `episodeEmits`, i.e. no `GazeAway` while the
sustained duration is below the required sustain (3500 ms centered, 2500 ms
otherwise) and exactly one `GazeAway` at the first tick where the sustain is
reached with at least 5000 ms since the last alert; `episodeEmits` never
holds more than one event; an episode all of whose ticks fall inside the
5000 ms cooldown emits nothing; while `ALERT_ACTIVE` a strong tick emits
nothing and keeps the state; and a safe-zone or minor-movement face-present
tick resets the state to `NORMAL` without emitting. -/
theorem gaze_episode_emission_discipline
    (s : MonitorState) (δ t₀ : ℤ) (c₀ : Bool) (tcs : List (ℤ × Bool))
    (h : s.gazeState = .NORMAL) :
    (gazeRun s (strongTicks δ ((t₀, c₀) :: tcs))).2
        = episodeEmits s.lastGazeAlertTime t₀ ((t₀, c₀) :: tcs)
    ∧ (∀ (L d : ℤ) (l : List (ℤ × Bool)), (episodeEmits L d l).length ≤ 1)
    ∧ ((∀ p ∈ (t₀, c₀) :: tcs, p.1 - s.lastGazeAlertTime < GAZE_COOLDOWN_MS) →
        (gazeRun s (strongTicks δ ((t₀, c₀) :: tcs))).2 = [])
    ∧ (∀ (s' : MonitorState) (c : Bool) (t δ' : ℤ),
        s'.gazeState = .ALERT_ACTIVE →
        (gazeTick s' (strongResult c) t δ').2 = []
        ∧ ((gazeTick s' (strongResult c) t δ').1).gazeState = .ALERT_ACTIVE)
    ∧ (∀ (s' : MonitorState) (r : GazeResult) (t δ' : ℤ),
        r.faceDetected = true →
        r.faceDetectionConfidence.ltQ MIN_FACE_CONFIDENCE = false →
        (r.inSafeZone = true ∨ r.isStrongDeviation = false) →
        (gazeTick s' r t δ').2 = []
        ∧ ((gazeTick s' r t δ').1).gazeState = .NORMAL) := by
  have hmain : (gazeRun s (strongTicks δ ((t₀, c₀) :: tcs))).2
      = episodeEmits s.lastGazeAlertTime t₀ ((t₀, c₀) :: tcs) := by
    have hstep := gazeTick_strongResult s c₀ t₀ δ
    rw [gazeTickStrong_NORMAL _ c₀ t₀ δ (by simp [h])] at hstep
    have hg : (gazeTick s (strongResult c₀) t₀ δ).1.gazeState
        = .MONITORING_DEVIATION := by rw [hstep]
    have hd : (gazeTick s (strongResult c₀) t₀ δ).1.deviationStart
        = some t₀ := by rw [hstep]
    have hL : (gazeTick s (strongResult c₀) t₀ δ).1.lastGazeAlertTime
        = s.lastGazeAlertTime := by rw [hstep]
    have hev : (gazeTick s (strongResult c₀) t₀ δ).2 = [] := by rw [hstep]
    have hrest := gazeRun_strong_MD δ t₀ s.lastGazeAlertTime tcs _ hg hd hL
    simp only [strongTicks, List.map_cons, gazeRun]
    simp only [strongTicks] at hrest
    rw [hev, hrest]
    have hhead : ¬ (t₀ - t₀ ≥ requiredSustainFor c₀ ∧
        t₀ - s.lastGazeAlertTime ≥ GAZE_COOLDOWN_MS) := by
      intro hcontra
      have := requiredSustainFor_pos c₀
      omega
    rw [List.nil_append]
    conv_rhs => rw [episodeEmits]
    rw [if_neg hhead]
  refine ⟨hmain, episodeEmits_length_le_one, ?_, ?_, ?_⟩
  · intro hcool
    rw [hmain]
    exact episodeEmits_cooldown _ _ _ hcool
  · intro s' c t δ' h'
    have hstep := gazeTick_strongResult s' c t δ'
    rw [gazeTickStrong_other _ c t δ' (by simp [h']) (by simp [h'])] at hstep
    constructor
    · rw [hstep]
    · rw [hstep]; exact h'
  · intro s' r t δ' hfd hconf hsm
    have habs : isAbsentResult r = false := by
      simp [isAbsentResult, hfd, hconf]
    rcases hsm with hsafe | hminor
    · constructor <;> simp [gazeTick, habs, presentGazeTick, hsafe]
    · constructor <;>
        · simp only [gazeTick, habs, presentGazeTick]
          by_cases hz : r.inSafeZone = true <;> simp [hz, hminor]

/-- Witness for C1: from the initial state, strong non-centered ticks at
10000 ms and 12500 ms emit exactly one `GazeAway` of 2500 ms. -/
theorem gaze_episode_emission_discipline_witness :
    (gazeRun initialMonitorState
        (strongTicks 100 [(10000, false), (12500, false)])).2
      = [TickEvent.gazeAway 2500] := by
  have h := gaze_episode_emission_discipline initialMonitorState 100 10000
    false [(12500, false)] rfl
  rw [h.1]
  decide

-- ═══════════════════════ C2: face-absence tracker ══════════════════════════

lemma gazeTick_absent (s : MonitorState) (r : GazeResult) (t δ : ℤ)
    (h : isAbsentResult r = true) :
    gazeTick s r t δ = absentTick s t δ := by
  simp [gazeTick, h]

lemma absentTick_none (s : MonitorState) (t δ : ℤ)
    (ha : s.absenceStart = none) :
    absentTick s t δ =
      ({ s with absenceStart := some t
                tqAbsence := s.tqAbsence + δ
                gazeState := .ABSENT }, []) := by
  have hneg : ¬ (t - t ≥ FACE_ABSENCE_SUSTAIN_MS ∧ s.isFaceAbsentLogged = false ∧
      t - s.lastFaceAbsentTime ≥ FACE_ABSENCE_COOLDOWN_MS) := by
    intro hcontra
    have := hcontra.1
    simp [FACE_ABSENCE_SUSTAIN_MS] at this
  simp only [absentTick, absenceStartOr, ha]
  rw [if_neg hneg]

lemma absentTick_some (s : MonitorState) (t δ a : ℤ)
    (ha : s.absenceStart = some a) (h0 : a ≠ 0) :
    absentTick s t δ =
      if t - a ≥ FACE_ABSENCE_SUSTAIN_MS ∧ s.isFaceAbsentLogged = false ∧
          t - s.lastFaceAbsentTime ≥ FACE_ABSENCE_COOLDOWN_MS then
        ({ s with absenceStart := some a
                  isFaceAbsentLogged := true
                  lastFaceAbsentTime := t
                  tqAbsence := s.tqAbsence + δ
                  gazeState := .ABSENT },
         [TickEvent.faceAbsent (t - a)])
      else
        ({ s with absenceStart := some a
                  tqAbsence := s.tqAbsence + δ
                  gazeState := .ABSENT }, []) := by
  simp [absentTick, absenceStartOr, ha, h0]

lemma gazeRun_absent_logged (ticks : List (GazeResult × ℤ × ℤ)) :
    ∀ s : MonitorState, s.isFaceAbsentLogged = true →
      (∀ p ∈ ticks, isAbsentResult p.1 = true) →
      (gazeRun s ticks).2 = [] := by
  induction ticks with
  | nil => intro s _ _; rfl
  | cons tick rest ih =>
      obtain ⟨r, t, δ⟩ := tick
      intro s hlog habs
      have hstep := gazeTick_absent s r t δ (habs (r, t, δ) (by simp))
      have hneg : ¬ ((t - absenceStartOr s.absenceStart t)
          ≥ FACE_ABSENCE_SUSTAIN_MS ∧ s.isFaceAbsentLogged = false ∧
          t - s.lastFaceAbsentTime ≥ FACE_ABSENCE_COOLDOWN_MS) := by
        intro hcontra
        rw [hlog] at hcontra
        simp at hcontra
      rw [absentTick] at hstep
      rw [if_neg hneg] at hstep
      have hg : (gazeTick s r t δ).1.isFaceAbsentLogged = true := by
        rw [hstep]; exact hlog
      have hev : (gazeTick s r t δ).2 = [] := by rw [hstep]
      simp only [gazeRun]
      rw [hev, ih _ hg fun q hq => habs q (by simp [hq])]
      rfl

lemma gazeRun_absent_tracking (ticks : List (GazeResult × ℤ × ℤ)) :
    ∀ (s : MonitorState) (a : ℤ), s.absenceStart = some a → a ≠ 0 →
      s.isFaceAbsentLogged = false →
      (∀ p ∈ ticks, isAbsentResult p.1 = true) →
      (gazeRun s ticks).2
        = absenceEmits s.lastFaceAbsentTime a (ticks.map fun p => p.2.1) := by
  induction ticks with
  | nil => intro s a _ _ _ _; rfl
  | cons tick rest ih =>
      obtain ⟨r, t, δ⟩ := tick
      intro s a ha h0 hlog habs
      have hstep := gazeTick_absent s r t δ (habs (r, t, δ) (by simp))
      rw [absentTick_some s t δ a ha h0] at hstep
      by_cases hc : t - a ≥ FACE_ABSENCE_SUSTAIN_MS ∧
          t - s.lastFaceAbsentTime ≥ FACE_ABSENCE_COOLDOWN_MS
      · rw [if_pos ⟨hc.1, hlog, hc.2⟩] at hstep
        have hg : (gazeTick s r t δ).1.isFaceAbsentLogged = true := by
          rw [hstep]
        have hev : (gazeTick s r t δ).2 = [TickEvent.faceAbsent (t - a)] := by
          rw [hstep]
        simp only [gazeRun, List.map_cons]
        rw [hev, gazeRun_absent_logged rest _ hg
          fun q hq => habs q (by simp [hq])]
        conv_rhs => rw [absenceEmits]
        rw [if_pos hc]
        rfl
      · have hcc : ¬ (t - a ≥ FACE_ABSENCE_SUSTAIN_MS ∧
            s.isFaceAbsentLogged = false ∧
            t - s.lastFaceAbsentTime ≥ FACE_ABSENCE_COOLDOWN_MS) := by
          intro hcontra
          exact hc ⟨hcontra.1, hcontra.2.2⟩
        rw [if_neg hcc] at hstep
        have hg : (gazeTick s r t δ).1.absenceStart = some a := by rw [hstep]
        have hlog' : (gazeTick s r t δ).1.isFaceAbsentLogged = false := by
          rw [hstep]; exact hlog
        have hL : (gazeTick s r t δ).1.lastFaceAbsentTime
            = s.lastFaceAbsentTime := by rw [hstep]
        have hev : (gazeTick s r t δ).2 = [] := by rw [hstep]
        simp only [gazeRun, List.map_cons]
        have hrest := ih _ a hg h0 hlog' fun q hq => habs q (by simp [hq])
        rw [hev, hrest, hL]
        conv_rhs => rw [absenceEmits]
        rw [if_neg hc]
        rfl

lemma absenceEmits_length_le_one (lastE aS : ℤ) (l : List ℤ) :
    (absenceEmits lastE aS l).length ≤ 1 := by
  induction l with
  | nil => simp [absenceEmits]
  | cons t rest ih =>
      simp only [absenceEmits]
      split_ifs <;> simp [ih]

/-- Claim C2 — Face-absence tracker.  For an absence episode starting with
cleared tracking state: the emitted events are exactly `absenceEmits`, i.e.
at most one `FaceAbsent` per continuous absence episode, emitted exactly at
the first tick where the absence has persisted at least 2500 ms while not
already logged and at least 5000 ms have passed since the last `FaceAbsent`
emission; and the first face-present tick clears the recorded absence start
and the logged flag, re-arming the next episode. -/
theorem face_absence_tracker
    (s : MonitorState) (r₀ : GazeResult) (t₀ δ₀ : ℤ)
    (rest : List (GazeResult × ℤ × ℤ))
    (h0 : s.absenceStart = none) (h1 : s.isFaceAbsentLogged = false)
    (ht : t₀ ≠ 0)
    (habs : ∀ p ∈ (r₀, t₀, δ₀) :: rest, isAbsentResult p.1 = true) :
    (gazeRun s ((r₀, t₀, δ₀) :: rest)).2
      = absenceEmits s.lastFaceAbsentTime t₀
          (((r₀, t₀, δ₀) :: rest).map fun p => p.2.1)
    ∧ (∀ (lastE aS : ℤ) (l : List ℤ), (absenceEmits lastE aS l).length ≤ 1)
    ∧ (∀ (s' : MonitorState) (r : GazeResult) (t δ : ℤ),
        isAbsentResult r = false →
        ((gazeTick s' r t δ).1).absenceStart = none
        ∧ ((gazeTick s' r t δ).1).isFaceAbsentLogged = false) := by
  refine ⟨?_, absenceEmits_length_le_one, ?_⟩
  · have hstep := gazeTick_absent s r₀ t₀ δ₀ (habs (r₀, t₀, δ₀) (by simp))
    rw [absentTick_none s t₀ δ₀ h0] at hstep
    have hg : (gazeTick s r₀ t₀ δ₀).1.absenceStart = some t₀ := by rw [hstep]
    have hlog' : (gazeTick s r₀ t₀ δ₀).1.isFaceAbsentLogged = false := by
      rw [hstep]; exact h1
    have hL : (gazeTick s r₀ t₀ δ₀).1.lastFaceAbsentTime
        = s.lastFaceAbsentTime := by rw [hstep]
    have hev : (gazeTick s r₀ t₀ δ₀).2 = [] := by rw [hstep]
    simp only [gazeRun, List.map_cons]
    have hrest := gazeRun_absent_tracking rest _ t₀ hg ht hlog'
      fun q hq => habs q (by simp [hq])
    rw [hev, hrest, hL]
    have hhead : ¬ (t₀ - t₀ ≥ FACE_ABSENCE_SUSTAIN_MS ∧
        t₀ - s.lastFaceAbsentTime ≥ FACE_ABSENCE_COOLDOWN_MS) := by
      intro hcontra
      have := hcontra.1
      simp [FACE_ABSENCE_SUSTAIN_MS] at this
    conv_rhs => rw [absenceEmits]
    rw [if_neg hhead]
    rfl
  · intro s' r t δ hpres
    have hbranch : gazeTick s' r t δ = presentGazeTick s' r t δ := by
      simp [gazeTick, hpres]
    rw [hbranch]
    simp only [presentGazeTick]
    split_ifs with hz hm
    · exact ⟨rfl, rfl⟩
    · exact ⟨rfl, rfl⟩
    · simp only [gazeTickStrong]
      split_ifs <;> exact ⟨rfl, rfl⟩

/-- Witness for C2: from the initial state, absent ticks at 10000 ms and
12500 ms emit exactly one `FaceAbsent` of 2500 ms. -/
theorem face_absence_tracker_witness :
    (gazeRun initialMonitorState
        [(absentResult, 10000, 100), (absentResult, 12500, 100)]).2
      = [TickEvent.faceAbsent 2500] := by
  have h := face_absence_tracker initialMonitorState absentResult 10000 100
    [(absentResult, 12500, 100)] rfl rfl (by decide) (by decide)
  rw [h.1]
  decide

-- ═══════════════════════ C6: gaze classifier thresholds ════════════════════

lemma safeZone_not_strong (y p : ℚ) (h : isInSafeZone y p = true) :
    isStrongDeviationCheck y p = false := by
  simp only [isInSafeZone, Bool.and_eq_true, decide_eq_true_eq,
    MAX_YAW_NORMAL, MAX_PITCH_NORMAL] at h
  obtain ⟨h1, h2⟩ := h
  obtain ⟨h2a, h2b⟩ := abs_le.mp h2
  have h1a := (abs_le.mp h1).1
  have h1b := (abs_le.mp h1).2
  simp only [isStrongDeviationCheck, STRONG_YAW_DEG, STRONG_PITCH_UP_DEG,
    STRONG_PITCH_DOWN_DEG]
  rw [if_neg (by push_neg; rw [abs_le]; constructor <;> linarith),
    if_neg (by push_neg; linarith), if_neg (by push_neg; linarith)]

/-- Claim C6 — Gaze classifier thresholds: `inSafeZone` holds exactly when
`|yaw| ≤ 18` and `|pitch| ≤ 22`; `isStrongDeviation` holds exactly when
`|yaw| > 25` or `pitch < -30` or `pitch > 35` (asymmetric pitch); and a
measurement satisfying neither is minor movement: it forces the state
machine back to `NORMAL`, clears the deviation start, and emits nothing. -/
theorem gaze_classifier_thresholds (yawDeg pitchDeg : ℚ) :
    (isInSafeZone yawDeg pitchDeg = true ↔
      |yawDeg| ≤ 18 ∧ |pitchDeg| ≤ 22)
    ∧ (isStrongDeviationCheck yawDeg pitchDeg = true ↔
      (|yawDeg| > 25 ∨ pitchDeg < -30 ∨ pitchDeg > 35))
    ∧ (∀ (s : MonitorState) (conf : JSNum) (c : Bool) (t δ : ℤ),
        conf.ltQ MIN_FACE_CONFIDENCE = false →
        isInSafeZone yawDeg pitchDeg = false →
        isStrongDeviationCheck yawDeg pitchDeg = false →
        ((gazeTick s (measurementOf true conf yawDeg pitchDeg c) t δ).1).gazeState
            = .NORMAL
        ∧ ((gazeTick s (measurementOf true conf yawDeg pitchDeg c)
              t δ).1).deviationStart = none
        ∧ (gazeTick s (measurementOf true conf yawDeg pitchDeg c) t δ).2
            = []) := by
  refine ⟨?_, ?_, ?_⟩
  · simp [isInSafeZone, MAX_YAW_NORMAL, MAX_PITCH_NORMAL]
  · simp only [isStrongDeviationCheck, STRONG_YAW_DEG, STRONG_PITCH_UP_DEG,
      STRONG_PITCH_DOWN_DEG]
    split_ifs with ha hb hc
    · simp [ha]
    · simp [hb]
    · simp [hc]
    · simp [ha, hb, hc]
  · intro s conf c t δ hconf hsafe hstrong
    have habs : isAbsentResult (measurementOf true conf yawDeg pitchDeg c)
        = false := by
      simp [isAbsentResult, measurementOf, hconf]
    have hb : gazeTick s (measurementOf true conf yawDeg pitchDeg c) t δ
        = presentGazeTick s (measurementOf true conf yawDeg pitchDeg c)
            t δ := by
      simp [gazeTick, habs]
    rw [hb]
    simp only [presentGazeTick, measurementOf]
    rw [hsafe, hstrong]
    exact ⟨rfl, rfl, rfl⟩

/-- Witness for C6: yaw 20, pitch 0 is neither safe-zone nor strong; such a
tick from the initial state stays `NORMAL` with no deviation start and no
event. -/
theorem gaze_classifier_thresholds_witness :
    isInSafeZone 20 0 = false
    ∧ isStrongDeviationCheck 20 0 = false
    ∧ ((gazeTick initialMonitorState
          (measurementOf true (.val 1) 20 0 false) 1000 100).1).gazeState
        = .NORMAL
    ∧ (gazeTick initialMonitorState
          (measurementOf true (.val 1) 20 0 false) 1000 100).2 = [] := by
  have hsafe : isInSafeZone 20 0 = false := by
    norm_num [isInSafeZone, MAX_YAW_NORMAL, MAX_PITCH_NORMAL]
  have hstrong : isStrongDeviationCheck 20 0 = false := by
    norm_num [isStrongDeviationCheck, STRONG_YAW_DEG, STRONG_PITCH_UP_DEG,
      STRONG_PITCH_DOWN_DEG]
  have hconf : (JSNum.val 1).ltQ MIN_FACE_CONFIDENCE = false := by
    simp [JSNum.ltQ, MIN_FACE_CONFIDENCE]
    norm_num
  have h := (gaze_classifier_thresholds 20 0).2.2 initialMonitorState
    (.val 1) false 1000 100 hconf hsafe hstrong
  exact ⟨hsafe, hstrong, h.1, h.2.2⟩

-- ═══════════════════════ C7: time-quality accumulator ══════════════════════

/-- `TimeQualityMetrics` as published by `setTimeQuality`. -/
structure TimeQualityMetrics where
  focusedTimeMs : ℤ
  minorMovementTimeMs : ℤ
  deviationTimeMs : ℤ
  absenceTimeMs : ℤ
  totalSessionTimeMs : ℤ
  focusRatio : ℚ
  deriving DecidableEq

/-- The `setTimeQuality` payload computed at the end of `aiLoop`: the total
is the sum of the four buckets and
`focusRatio = Math.round(((focused + minor) / totalMs) * 100) / 100`.
The source publishes it only when `totalMs > 0` (the `now % 4 < 1` clause
merely throttles UI updates). -/
def setTimeQualityOf (s : MonitorState) : TimeQualityMetrics :=
  let totalMs := s.tqFocused + s.tqMinor + s.tqDeviation + s.tqAbsence
  { focusedTimeMs := s.tqFocused
    minorMovementTimeMs := s.tqMinor
    deviationTimeMs := s.tqDeviation
    absenceTimeMs := s.tqAbsence
    totalSessionTimeMs := totalMs
    focusRatio :=
      (round ((((s.tqFocused + s.tqMinor : ℤ) : ℚ) / (totalMs : ℚ)) * 100)
        : ℚ) / 100 }

/-- Claim C7 — Time-quality invariant.  Every processed tick adds `deltaMs`
to exactly one bucket, by priority: absent, then strong deviation, then
minor movement, then safe zone; the published `totalSessionTimeMs` equals
the sum of the four buckets; with nonnegative buckets and positive total the
published `focusRatio` lies in `[0, 1]`; and with no deviation and no
absence time the `focusRatio` is exactly 1. -/
theorem time_quality_invariant :
    (∀ (s : MonitorState) (fd : Bool) (conf : JSNum) (y p : ℚ)
        (c : Bool) (t δ : ℤ),
      (isAbsentResult (measurementOf fd conf y p c) = true →
        ((gazeTick s (measurementOf fd conf y p c) t δ).1).tqAbsence
            = s.tqAbsence + δ
        ∧ ((gazeTick s (measurementOf fd conf y p c) t δ).1).tqFocused
            = s.tqFocused
        ∧ ((gazeTick s (measurementOf fd conf y p c) t δ).1).tqMinor
            = s.tqMinor
        ∧ ((gazeTick s (measurementOf fd conf y p c) t δ).1).tqDeviation
            = s.tqDeviation)
      ∧ (isAbsentResult (measurementOf fd conf y p c) = false →
          isStrongDeviationCheck y p = true →
        ((gazeTick s (measurementOf fd conf y p c) t δ).1).tqDeviation
            = s.tqDeviation + δ
        ∧ ((gazeTick s (measurementOf fd conf y p c) t δ).1).tqFocused
            = s.tqFocused
        ∧ ((gazeTick s (measurementOf fd conf y p c) t δ).1).tqMinor
            = s.tqMinor
        ∧ ((gazeTick s (measurementOf fd conf y p c) t δ).1).tqAbsence
            = s.tqAbsence)
      ∧ (isAbsentResult (measurementOf fd conf y p c) = false →
          isStrongDeviationCheck y p = false → isInSafeZone y p = false →
        ((gazeTick s (measurementOf fd conf y p c) t δ).1).tqMinor
            = s.tqMinor + δ
        ∧ ((gazeTick s (measurementOf fd conf y p c) t δ).1).tqFocused
            = s.tqFocused
        ∧ ((gazeTick s (measurementOf fd conf y p c) t δ).1).tqDeviation
            = s.tqDeviation
        ∧ ((gazeTick s (measurementOf fd conf y p c) t δ).1).tqAbsence
            = s.tqAbsence)
      ∧ (isAbsentResult (measurementOf fd conf y p c) = false →
          isInSafeZone y p = true →
        ((gazeTick s (measurementOf fd conf y p c) t δ).1).tqFocused
            = s.tqFocused + δ
        ∧ ((gazeTick s (measurementOf fd conf y p c) t δ).1).tqMinor
            = s.tqMinor
        ∧ ((gazeTick s (measurementOf fd conf y p c) t δ).1).tqDeviation
            = s.tqDeviation
        ∧ ((gazeTick s (measurementOf fd conf y p c) t δ).1).tqAbsence
            = s.tqAbsence))
    ∧ (∀ s : MonitorState, (setTimeQualityOf s).totalSessionTimeMs
        = s.tqFocused + s.tqMinor + s.tqDeviation + s.tqAbsence)
    ∧ (∀ s : MonitorState, 0 ≤ s.tqFocused → 0 ≤ s.tqMinor →
        0 ≤ s.tqDeviation → 0 ≤ s.tqAbsence →
        0 < s.tqFocused + s.tqMinor + s.tqDeviation + s.tqAbsence →
        0 ≤ (setTimeQualityOf s).focusRatio
        ∧ (setTimeQualityOf s).focusRatio ≤ 1)
    ∧ (∀ s : MonitorState, s.tqDeviation = 0 → s.tqAbsence = 0 →
        0 < s.tqFocused + s.tqMinor →
        (setTimeQualityOf s).focusRatio = 1) := by
  refine ⟨?_, fun s => rfl, ?_, ?_⟩
  · intro s fd conf y p c t δ
    refine ⟨?_, ?_, ?_, ?_⟩
    · intro habs
      rw [gazeTick_absent _ _ _ _ habs]
      simp only [absentTick]
      split_ifs <;> exact ⟨rfl, rfl, rfl, rfl⟩
    · intro habs hstrong
      have hsafe : isInSafeZone y p = false := by
        cases hzone : isInSafeZone y p with
        | false => rfl
        | true => rw [safeZone_not_strong y p hzone] at hstrong; cases hstrong
      have hb : gazeTick s (measurementOf fd conf y p c) t δ
          = presentGazeTick s (measurementOf fd conf y p c) t δ := by
        simp [gazeTick, habs]
      rw [hb]
      simp only [presentGazeTick, measurementOf]
      rw [hsafe, hstrong]
      simp only [Bool.not_true, Bool.false_eq_true, if_false]
      simp only [gazeTickStrong]
      split_ifs <;> exact ⟨rfl, rfl, rfl, rfl⟩
    · intro habs hstrong hsafe
      have hb : gazeTick s (measurementOf fd conf y p c) t δ
          = presentGazeTick s (measurementOf fd conf y p c) t δ := by
        simp [gazeTick, habs]
      rw [hb]
      simp only [presentGazeTick, measurementOf]
      rw [hsafe, hstrong]
      exact ⟨rfl, rfl, rfl, rfl⟩
    · intro habs hsafe
      have hb : gazeTick s (measurementOf fd conf y p c) t δ
          = presentGazeTick s (measurementOf fd conf y p c) t δ := by
        simp [gazeTick, habs]
      rw [hb]
      simp only [presentGazeTick, measurementOf]
      rw [hsafe]
      exact ⟨rfl, rfl, rfl, rfl⟩
  · intro s hf hm hd ha htot
    set totalZ : ℤ := s.tqFocused + s.tqMinor + s.tqDeviation + s.tqAbsence
      with htotZ
    set q : ℚ := ((s.tqFocused + s.tqMinor : ℤ) : ℚ) / (totalZ : ℚ)
      with hqdef
    have htotQ : (0 : ℚ) < (totalZ : ℚ) := by exact_mod_cast htot
    have hfm : (0 : ℚ) ≤ ((s.tqFocused + s.tqMinor : ℤ) : ℚ) := by
      exact_mod_cast by omega
    have hle : ((s.tqFocused + s.tqMinor : ℤ) : ℚ) ≤ (totalZ : ℚ) := by
      exact_mod_cast by omega
    have hq0 : (0 : ℚ) ≤ q := div_nonneg hfm (le_of_lt htotQ)
    have hq1 : q ≤ 1 := (div_le_one htotQ).mpr hle
    have hr0 : (0 : ℤ) ≤ round (q * 100) := by
      rw [round_eq]
      refine Int.le_floor.mpr ?_
      have hq : (0 : ℚ) ≤ q * 100 + 1/2 := by nlinarith
      exact_mod_cast hq
    have hr1 : round (q * 100) ≤ 100 := by
      rw [round_eq]
      have hlt : q * 100 + 1/2 < 101 := by nlinarith
      have h3 : ⌊q * 100 + 1/2⌋ < (101 : ℤ) :=
        Int.floor_lt.mpr (by exact_mod_cast hlt)
      omega
    have hfr : (setTimeQualityOf s).focusRatio
        = (round (q * 100) : ℚ) / 100 := rfl
    rw [hfr]
    have hcast0 : (0 : ℚ) ≤ (round (q * 100) : ℚ) := by exact_mod_cast hr0
    have hcast1 : (round (q * 100) : ℚ) ≤ 100 := by exact_mod_cast hr1
    constructor
    · linarith
    · linarith
  · intro s hd ha htot
    show (round ((((s.tqFocused + s.tqMinor : ℤ) : ℚ)
        / ((s.tqFocused + s.tqMinor + s.tqDeviation + s.tqAbsence : ℤ) : ℚ))
        * 100) : ℚ) / 100 = 1
    rw [hd, ha]
    have hne : ((s.tqFocused + s.tqMinor : ℤ) : ℚ) ≠ 0 := by
      exact_mod_cast by omega
    rw [add_zero, add_zero, div_self hne, one_mul, round_eq]
    norm_num

/-- Witness for C7: a face-absent tick from the initial state puts its whole
delta into the absence bucket, and a session with only focused and minor
time has `focusRatio = 1`. -/
theorem time_quality_invariant_witness :
    ((gazeTick initialMonitorState (measurementOf false (.val 0) 0 0 false)
        1000 100).1).tqAbsence = 100
    ∧ (setTimeQualityOf
        { initialMonitorState with tqFocused := 900, tqMinor := 100
        }).focusRatio = 1 := by
  have h1 := (time_quality_invariant.1 initialMonitorState false (.val 0)
    0 0 false 1000 100).1 (by decide)
  have h2 := time_quality_invariant.2.2.2
    { initialMonitorState with tqFocused := 900, tqMinor := 100 }
    rfl rfl (by decide)
  refine ⟨?_, h2⟩
  rw [h1.1]
  decide

-- ═══════════════════════ C8: NaN confidence handling ═══════════════════════

/-- A face-present measurement carrying a NaN confidence, classified as a
strong deviation. -/
def nanStrongResult : GazeResult :=
  { faceDetected := true
    faceDetectionConfidence := .nan
    inSafeZone := false
    isStrongDeviation := true
    isCentered := false }

/-- Counterexample to C8: a tick with `faceDetected = true` and
`faceConfidence = NaN` does NOT take the absence path.  In JS,
`NaN < 0.6` is `false`, so the tick goes down the gaze path: from the
initial state it enters `MONITORING_DEVIATION` (not `ABSENT`), keeps the
absence bucket and the absence start untouched. -/
theorem nan_tick_not_absent_counterexample :
    ((gazeTick initialMonitorState nanStrongResult 1000 100).1).gazeState
        = .MONITORING_DEVIATION
    ∧ ((gazeTick initialMonitorState nanStrongResult 1000 100).1).gazeState
        ≠ .ABSENT
    ∧ ((gazeTick initialMonitorState nanStrongResult 1000 100).1).tqAbsence
        = 0
    ∧ ((gazeTick initialMonitorState nanStrongResult 1000 100).1).absenceStart
        = none := by
  decide

/-- Claim C8 (amended) — A tick with `faceDetected = true` but
`faceConfidence = NaN` is treated as face *present* (the JS comparison
`NaN < 0.6` is false): it takes the gaze path, clearing the absence start
and logged flag and adding nothing to the absence bucket; a face-detected
tick whose confidence compares below 0.6 (including out-of-range negative
values) takes the absence path, entering `ABSENT` and accumulating absence
time.  In both cases the tick is total and never crashes. -/
theorem nan_tick_gaze_path :
    (∀ (s : MonitorState) (y p : ℚ) (c : Bool) (t δ : ℤ),
      ((gazeTick s (measurementOf true .nan y p c) t δ).1).absenceStart = none
      ∧ ((gazeTick s (measurementOf true .nan y p c) t δ).1).isFaceAbsentLogged
          = false
      ∧ ((gazeTick s (measurementOf true .nan y p c) t δ).1).tqAbsence
          = s.tqAbsence)
    ∧ (∀ (s : MonitorState) (q y p : ℚ) (c : Bool) (t δ : ℤ),
        q < MIN_FACE_CONFIDENCE →
        ((gazeTick s (measurementOf true (.val q) y p c) t δ).1).gazeState
            = .ABSENT
        ∧ ((gazeTick s (measurementOf true (.val q) y p c) t δ).1).tqAbsence
            = s.tqAbsence + δ) := by
  constructor
  · intro s y p c t δ
    have habs : isAbsentResult (measurementOf true .nan y p c) = false := by
      simp [isAbsentResult, measurementOf, JSNum.ltQ]
    have hb : gazeTick s (measurementOf true .nan y p c) t δ
        = presentGazeTick s (measurementOf true .nan y p c) t δ := by
      simp [gazeTick, habs]
    rw [hb]
    simp only [presentGazeTick, measurementOf]
    split_ifs with hz hm
    · exact ⟨rfl, rfl, rfl⟩
    · exact ⟨rfl, rfl, rfl⟩
    · simp only [gazeTickStrong]
      split_ifs <;> exact ⟨rfl, rfl, rfl⟩
  · intro s q y p c t δ hq
    have habs : isAbsentResult (measurementOf true (.val q) y p c) = true := by
      simp [isAbsentResult, measurementOf, JSNum.ltQ, hq]
    rw [gazeTick_absent _ _ _ _ habs]
    simp only [absentTick]
    split_ifs <;> exact ⟨rfl, rfl⟩

/-- Witness for C8 (amended): at concrete inputs, the NaN tick keeps the
absence start cleared while a 0.5-confidence tick degrades to `ABSENT`. -/
theorem nan_tick_gaze_path_witness :
    ((gazeTick initialMonitorState (measurementOf true .nan 40 0 false)
        1000 100).1).absenceStart = none
    ∧ ((gazeTick initialMonitorState
        (measurementOf true (.val (1/2)) 40 0 false) 1000 100).1).gazeState
        = .ABSENT := by
  refine ⟨(nan_tick_gaze_path.1 initialMonitorState 40 0 false 1000 100).1,
    (nan_tick_gaze_path.2 initialMonitorState (1/2) 40 0 false 1000 100
      ?_).1⟩
  rw [MIN_FACE_CONFIDENCE]
  norm_num

-- ═══════════════════════ C10: ABSENT lockout ═══════════════════════════════

lemma gazeRun_from_ABSENT (ticks : List (GazeResult × ℤ × ℤ)) :
    ∀ s : MonitorState, s.gazeState = .ABSENT →
      (∀ p ∈ ticks, isAbsentResult p.1 = true ∨
        (p.1.inSafeZone = false ∧ p.1.isStrongDeviation = true)) →
      (∀ d : ℤ, TickEvent.gazeAway d ∉ (gazeRun s ticks).2)
      ∧ ((gazeRun s ticks).1).gazeState = .ABSENT := by
  induction ticks with
  | nil => intro s h _; exact ⟨by simp [gazeRun], h⟩
  | cons tick rest ih =>
      obtain ⟨r, t, δ⟩ := tick
      intro s h hdisj
      by_cases habs : isAbsentResult r = true
      · have hstep := gazeTick_absent s r t δ habs
        rw [absentTick] at hstep
        simp only [gazeRun]
        split_ifs at hstep with hcond
        · have hg : (gazeTick s r t δ).1.gazeState = .ABSENT := by rw [hstep]
          have hev : (gazeTick s r t δ).2
              = [TickEvent.faceAbsent
                  (t - absenceStartOr s.absenceStart t)] := by rw [hstep]
          have hrest := ih _ hg fun q hq => hdisj q (by simp [hq])
          refine ⟨?_, hrest.2⟩
          intro d hd
          rw [hev] at hd
          simp at hd
          exact hrest.1 d hd
        · have hg : (gazeTick s r t δ).1.gazeState = .ABSENT := by rw [hstep]
          have hev : (gazeTick s r t δ).2 = [] := by rw [hstep]
          have hrest := ih _ hg fun q hq => hdisj q (by simp [hq])
          refine ⟨?_, hrest.2⟩
          intro d hd
          rw [hev] at hd
          simp at hd
          exact hrest.1 d hd
      · have hflags := (hdisj (r, t, δ) (by simp)).resolve_left habs
        have hb : gazeTick s r t δ = presentGazeTick s r t δ := by
          simp only [gazeTick]
          rw [Bool.eq_false_iff.mpr habs]
          rfl
        have hstep : gazeTick s r t δ
            = ({ s with absenceStart := none
                        isFaceAbsentLogged := false
                        tqDeviation := s.tqDeviation + δ }, []) := by
          rw [hb]
          simp only [presentGazeTick]
          rw [hflags.1, hflags.2]
          simp only [Bool.not_true, Bool.false_eq_true, if_false]
          rw [gazeTickStrong_other _ _ _ _ (by simp [h]) (by simp [h])]
        have hg : (gazeTick s r t δ).1.gazeState = .ABSENT := by
          rw [hstep]; exact h
        have hev : (gazeTick s r t δ).2 = [] := by rw [hstep]
        have hrest := ih _ hg fun q hq => hdisj q (by simp [hq])
        simp only [gazeRun]
        refine ⟨?_, hrest.2⟩
        intro d hd
        rw [hev] at hd
        simp at hd
        exact hrest.1 d hd

/-- Claim C10 — Implicit ABSENT lockout: from the `ABSENT` state, a
face-present strong-deviation tick leaves the state `ABSENT`, records no
deviation start, and emits nothing; consequently, over any run of ticks
that are each face-absent or strong-deviation (no safe-zone or
minor-movement tick), no `GazeAway` is ever emitted and the state stays
`ABSENT`. -/
theorem absent_lockout (s : MonitorState) (h : s.gazeState = .ABSENT) :
    (∀ (r : GazeResult) (t δ : ℤ),
      r.faceDetected = true →
      r.faceDetectionConfidence.ltQ MIN_FACE_CONFIDENCE = false →
      r.inSafeZone = false → r.isStrongDeviation = true →
      ((gazeTick s r t δ).1).gazeState = .ABSENT
      ∧ ((gazeTick s r t δ).1).deviationStart = s.deviationStart
      ∧ (gazeTick s r t δ).2 = [])
    ∧ (∀ ticks : List (GazeResult × ℤ × ℤ),
        (∀ p ∈ ticks, isAbsentResult p.1 = true ∨
          (p.1.inSafeZone = false ∧ p.1.isStrongDeviation = true)) →
        ∀ d : ℤ, TickEvent.gazeAway d ∉ (gazeRun s ticks).2) := by
  constructor
  · intro r t δ hfd hconf hsafe hstrong
    have habs : isAbsentResult r = false := by
      simp [isAbsentResult, hfd, hconf]
    have hb : gazeTick s r t δ = presentGazeTick s r t δ := by
      simp [gazeTick, habs]
    rw [hb]
    simp only [presentGazeTick]
    rw [hsafe, hstrong]
    simp only [Bool.not_true, Bool.false_eq_true, if_false]
    rw [gazeTickStrong_other _ _ _ _ (by simp [h]) (by simp [h])]
    exact ⟨h, rfl, rfl⟩
  · intro ticks hdisj
    exact (gazeRun_from_ABSENT ticks s h hdisj).1

/-- Witness for C10: from an `ABSENT` state, a concrete strong tick stays
`ABSENT` and emits nothing. -/
theorem absent_lockout_witness :
    ((gazeTick { initialMonitorState with gazeState := .ABSENT }
        (strongResult false) 1000 100).1).gazeState = .ABSENT
    ∧ (gazeTick { initialMonitorState with gazeState := .ABSENT }
        (strongResult false) 1000 100).2 = [] := by
  have h := (absent_lockout
    { initialMonitorState with gazeState := .ABSENT } rfl).1
    (strongResult false) 1000 100 rfl
    (by simp [strongResult, JSNum.ltQ, MIN_FACE_CONFIDENCE]; norm_num)
    rfl rfl
  exact ⟨h.1, h.2.2⟩

-- ═══════════════════════ C5: object detection tracker ══════════════════════

/-- A raw COCO-SSD prediction as consumed by `runObjectDetection`:
`cls` is the source's `class` field (a Lean keyword); `score := none`
models a value for which `typeof p.score === "number"` fails. -/
structure RawPrediction where
  score : Option ℚ
  cls : String

/-- `DetectedObject` produced by the filter in object-detector.ts. -/
structure DetectedObject where
  label : String
  score : ℚ
  deriving DecidableEq

/-- An `OBJECT_DETECTED` session event (label and score metadata). -/
structure ObjectDetectedEvent where
  label : String
  score : ℚ
  deriving DecidableEq

/-- The pure filter of `runObjectDetection`: keep predictions with a
numeric score `≥ CONFIDENCE_THRESHOLD` whose label is prohibited, then map
them to `DetectedObject`s. -/
def runObjectDetectionFilter (rawPredictions : List RawPrediction) :
    List DetectedObject :=
  (rawPredictions.filter fun p =>
      match p.score with
      | some sc =>
          decide (sc ≥ CONFIDENCE_THRESHOLD) &&
            decide (p.cls ∈ PROHIBITED_LABELS)
      | none => false).map
    fun p => { label := p.cls, score := p.score.getD 0 }

/-- The `objectCooldownMap` of `aiLoop`, modeled as an association list:
`Map.set` prepends an entry and lookup returns the most recent one. -/
def cooldownLookup (m : List (String × ℤ)) (label : String) : Option ℤ :=
  match m with
  | [] => none
  | (l, t) :: rest => if l = label then some t else cooldownLookup rest label

/-- The per-label cooldown loop of `aiLoop`: for each detection,
`lastFor = map.get(label) ?? 0`; if `frameNow - lastFor ≥
OBJECT_DETECTION_COOLDOWN_MS`, set `map[label] = frameNow` and emit one
`OBJECT_DETECTED` event. -/
def processObjectDetections (frameNow : ℤ) :
    List (String × ℤ) → List DetectedObject →
      List (String × ℤ) × List ObjectDetectedEvent
  | cooldown, [] => (cooldown, [])
  | cooldown, det :: rest =>
      let lastFor := (cooldownLookup cooldown det.label).getD 0
      if frameNow - lastFor ≥ OBJECT_DETECTION_COOLDOWN_MS then
        let next := processObjectDetections frameNow
          ((det.label, frameNow) :: cooldown) rest
        (next.1, ⟨det.label, det.score⟩ :: next.2)
      else
        processObjectDetections frameNow cooldown rest

lemma cooldownLookup_cons_self (m : List (String × ℤ)) (l : String) (t : ℤ) :
    cooldownLookup ((l, t) :: m) l = some t := by
  simp [cooldownLookup]

lemma processObjectDetections_lookup_preserved (frameNow : ℤ)
    (dets : List DetectedObject) :
    ∀ (m : List (String × ℤ)) (l : String),
      cooldownLookup m l = some frameNow →
      cooldownLookup (processObjectDetections frameNow m dets).1 l
        = some frameNow := by
  induction dets with
  | nil => intro m l h; exact h
  | cons det rest ih =>
      intro m l h
      simp only [processObjectDetections]
      split_ifs with hc
      · refine ih _ _ ?_
        by_cases hl : det.label = l
        · subst hl; exact cooldownLookup_cons_self m det.label frameNow
        · rw [cooldownLookup]
          rw [if_neg hl]
          exact h
      · exact ih _ _ h

lemma processObjectDetections_events_mem (frameNow : ℤ)
    (dets : List DetectedObject) :
    ∀ (m : List (String × ℤ)) (ev : ObjectDetectedEvent),
      ev ∈ (processObjectDetections frameNow m dets).2 →
      ∃ d ∈ dets, ev = ⟨d.label, d.score⟩ := by
  induction dets with
  | nil => intro m ev h; simp [processObjectDetections] at h
  | cons det rest ih =>
      intro m ev h
      simp only [processObjectDetections] at h
      split_ifs at h with hc
      · simp only [List.mem_cons] at h
        rcases h with h | h
        · exact ⟨det, by simp, h⟩
        · obtain ⟨d, hd, hevd⟩ := ih _ ev h
          exact ⟨d, by simp [hd], hevd⟩
      · obtain ⟨d, hd, hevd⟩ := ih _ ev h
        exact ⟨d, by simp [hd], hevd⟩

lemma processObjectDetections_updates (frameNow : ℤ)
    (dets : List DetectedObject) :
    ∀ (m : List (String × ℤ)) (l : String) (sc : ℚ),
      (⟨l, sc⟩ : ObjectDetectedEvent)
          ∈ (processObjectDetections frameNow m dets).2 →
      cooldownLookup (processObjectDetections frameNow m dets).1 l
        = some frameNow := by
  induction dets with
  | nil => intro m l sc h; simp [processObjectDetections] at h
  | cons det rest ih =>
      intro m l sc h
      simp only [processObjectDetections] at h ⊢
      split_ifs at h ⊢ with hc
      · simp only [List.mem_cons] at h
        rcases h with h | h
        · have hl : det.label = l := by
            have := congrArg ObjectDetectedEvent.label h
            exact this.symm
          refine processObjectDetections_lookup_preserved frameNow rest _ _ ?_
          subst hl
          exact cooldownLookup_cons_self m det.label frameNow
        · exact ih _ l sc h
      · exact ih _ l sc h

lemma runObjectDetectionFilter_valid (raw : List RawPrediction) :
    ∀ d ∈ runObjectDetectionFilter raw,
      d.score ≥ CONFIDENCE_THRESHOLD ∧ d.label ∈ PROHIBITED_LABELS := by
  intro d hd
  simp only [runObjectDetectionFilter, List.mem_map] at hd
  obtain ⟨p, hp, hdp⟩ := hd
  rw [List.mem_filter] at hp
  obtain ⟨_, hpred⟩ := hp
  cases hsc : p.score with
  | none => rw [hsc] at hpred; simp at hpred
  | some sc =>
      rw [hsc] at hpred
      simp only [Bool.and_eq_true, decide_eq_true_eq] at hpred
      subst hdp
      constructor
      · show p.score.getD 0 ≥ CONFIDENCE_THRESHOLD
        rw [hsc]
        exact hpred.1
      · exact hpred.2

/-- Claim C5 — Object cooldown tracker: every emitted event comes from a hit
with score `≥ 0.65` and a prohibited label; two detections of the same
label inside the 5000 ms cooldown (same tick or a later tick) emit exactly
one event; two different labels in the same tick each emit; and each
emission updates that label's last-emitted timestamp to the current time. -/
theorem object_cooldown_tracker :
    (∀ (raw : List RawPrediction) (m : List (String × ℤ)) (t : ℤ)
        (ev : ObjectDetectedEvent),
      ev ∈ (processObjectDetections t m (runObjectDetectionFilter raw)).2 →
      ev.score ≥ CONFIDENCE_THRESHOLD ∧ ev.label ∈ PROHIBITED_LABELS)
    ∧ (∀ (m : List (String × ℤ)) (t : ℤ) (d₁ d₂ : DetectedObject),
        d₁.label = d₂.label →
        t - (cooldownLookup m d₁.label).getD 0
            ≥ OBJECT_DETECTION_COOLDOWN_MS →
        (processObjectDetections t m [d₁, d₂]).2
          = [⟨d₁.label, d₁.score⟩])
    ∧ (∀ (m : List (String × ℤ)) (t₁ t₂ : ℤ) (d d' : DetectedObject),
        d'.label = d.label →
        t₁ - (cooldownLookup m d.label).getD 0
            ≥ OBJECT_DETECTION_COOLDOWN_MS →
        t₂ - t₁ < OBJECT_DETECTION_COOLDOWN_MS →
        (processObjectDetections t₁ m [d]).2 = [⟨d.label, d.score⟩]
        ∧ (processObjectDetections t₂
            (processObjectDetections t₁ m [d]).1 [d']).2 = [])
    ∧ (∀ (m : List (String × ℤ)) (t : ℤ) (d₁ d₂ : DetectedObject),
        d₁.label ≠ d₂.label →
        t - (cooldownLookup m d₁.label).getD 0
            ≥ OBJECT_DETECTION_COOLDOWN_MS →
        t - (cooldownLookup m d₂.label).getD 0
            ≥ OBJECT_DETECTION_COOLDOWN_MS →
        (processObjectDetections t m [d₁, d₂]).2
          = [⟨d₁.label, d₁.score⟩, ⟨d₂.label, d₂.score⟩])
    ∧ (∀ (m : List (String × ℤ)) (t : ℤ) (dets : List DetectedObject)
        (l : String) (sc : ℚ),
        (⟨l, sc⟩ : ObjectDetectedEvent)
            ∈ (processObjectDetections t m dets).2 →
        cooldownLookup (processObjectDetections t m dets).1 l = some t) := by
  refine ⟨?_, ?_, ?_, ?_, ?_⟩
  · intro raw m t ev hev
    obtain ⟨d, hd, hevd⟩ := processObjectDetections_events_mem t _ m ev hev
    have hvalid := runObjectDetectionFilter_valid raw d hd
    rw [hevd]
    exact hvalid
  · intro m t d₁ d₂ hlab hcool
    simp only [processObjectDetections]
    rw [if_pos hcool]
    have hlook : cooldownLookup ((d₁.label, t) :: m) d₂.label = some t := by
      rw [← hlab]
      exact cooldownLookup_cons_self m d₁.label t
    rw [hlook]
    rw [if_neg (by simp [OBJECT_DETECTION_COOLDOWN_MS])]
  · intro m t₁ t₂ d d' hlab hcool hwin
    have hone : (processObjectDetections t₁ m [d]).2
        = [⟨d.label, d.score⟩] := by
      simp only [processObjectDetections]
      rw [if_pos hcool]
    refine ⟨hone, ?_⟩
    have hmap : (processObjectDetections t₁ m [d]).1
        = (d.label, t₁) :: m := by
      simp only [processObjectDetections]
      rw [if_pos hcool]
    rw [hmap]
    simp only [processObjectDetections]
    have hlook : cooldownLookup ((d.label, t₁) :: m) d'.label = some t₁ := by
      rw [hlab]
      exact cooldownLookup_cons_self m d.label t₁
    rw [hlook]
    rw [if_neg (by simp; omega)]
  · intro m t d₁ d₂ hne hcool₁ hcool₂
    simp only [processObjectDetections]
    rw [if_pos hcool₁]
    have hlook : cooldownLookup ((d₁.label, t) :: m) d₂.label
        = cooldownLookup m d₂.label := by
      rw [cooldownLookup]
      rw [if_neg hne]
    rw [hlook]
    rw [if_pos hcool₂]
  · intro m t dets l sc h
    exact processObjectDetections_updates t dets m l sc h

/-- Witness for C5: over an empty cooldown map at time 10000, a duplicated
`book` hit emits once, and a `book` plus `cell phone` tick emits both. -/
theorem object_cooldown_tracker_witness :
    (processObjectDetections 10000 []
        [⟨"book", 9/10⟩, ⟨"book", 8/10⟩]).2 = [⟨"book", 9/10⟩]
    ∧ (processObjectDetections 10000 []
        [⟨"book", 9/10⟩, ⟨"cell phone", 8/10⟩]).2
      = [⟨"book", 9/10⟩, ⟨"cell phone", 8/10⟩] := by
  constructor
  · exact object_cooldown_tracker.2.1 [] 10000 ⟨"book", 9/10⟩ ⟨"book", 8/10⟩
      rfl (by decide)
  · exact object_cooldown_tracker.2.2.2.1 [] 10000 ⟨"book", 9/10⟩
      ⟨"cell phone", 8/10⟩ (by decide) (by decide) (by decide)

-- ═══════════════════════ C9: metrics aggregator ════════════════════════════

/-- A `SessionEvent` as read by the metrics aggregator: its `type` string
and `metadata?.durationMs` (`none` when the metadata has no numeric
duration). -/
structure SessionEvent where
  type : String
  durationMs : Option ℚ
  deriving DecidableEq

/-- `countEventsByType` from metrics-aggregator.ts. -/
def countEventsByType (events : List SessionEvent) (type : String) : ℕ :=
  (events.filter fun e => e.type == type).length

/-- `longestDuration` from metrics-aggregator.ts: the running maximum of
`metadata.durationMs` over events of the given type, starting at 0. -/
def longestDuration (events : List SessionEvent) (type : String) : ℚ :=
  events.foldl (fun longest e =>
    if e.type = type then
      match e.durationMs with
      | some d => max longest d
      | none => longest
    else longest) 0

/-- `buildRiskInput` from metrics-aggregator.ts. -/
def buildRiskInput (events : List SessionEvent)
    (sessionDurationMs : ℚ) : RiskInput :=
  { gazeDeviationCount := countEventsByType events ("GAZE_AWAY")
    faceAbsenceCount := countEventsByType events ("FACE_ABSENT")
    objectDetectionCount := countEventsByType events ("OBJECT_DETECTED")
    tabSwitchCount := countEventsByType events ("TAB_SWITCH")
    sessionDurationMs := sessionDurationMs }

/-- The compressed reporting payload built by `buildGeminiPayload`. -/
structure GeminiPayload where
  sessionDurationSec : ℤ
  focusRatio : ℚ
  gazeIncidents : ℕ
  longestGazeAwaySec : ℚ
  faceAbsenceEvents : ℕ
  objectIncidents : ℕ
  tabSwitches : ℕ
  riskScore : ℕ
  deriving DecidableEq

/-- `buildGeminiPayload` from metrics-aggregator.ts:
durations in seconds (`Math.round(ms / 1000)`,
`Math.round(ms / 100) / 10`), focus ratio rounded to 2 decimals, embedded
risk score. -/
def buildGeminiPayload (events : List SessionEvent)
    (sessionDurationMs focusRatio : ℚ) : GeminiPayload :=
  { sessionDurationSec := round (sessionDurationMs / 1000)
    focusRatio := (round (focusRatio * 100) : ℚ) / 100
    gazeIncidents := countEventsByType events ("GAZE_AWAY")
    longestGazeAwaySec :=
      (round (longestDuration events ("GAZE_AWAY") / 100) : ℚ) / 10
    faceAbsenceEvents := countEventsByType events ("FACE_ABSENT")
    objectIncidents := countEventsByType events ("OBJECT_DETECTED")
    tabSwitches := countEventsByType events ("TAB_SWITCH")
    riskScore :=
      (calculateRiskScore (buildRiskInput events sessionDurationMs)).score }

/-- The worked example's event log: a `GazeAway` of 3000 ms, a `FaceAbsent`
of 2500 ms, and a `TabSwitch`. -/
def exampleEvents : List SessionEvent :=
  [⟨"GAZE_AWAY", some 3000⟩, ⟨"FACE_ABSENT", some 2500⟩,
   ⟨"TAB_SWITCH", none⟩]

/-- Claim C9 — Worked aggregation example: for the three-event log with
session duration 120000 ms and focus ratio 0.88, the compressed payload is
exactly `{120, 0.88, 1, 3, 1, 0, 1, 29}`, and the risk score 29 arises as
the raw sum `8 + 15 + 6` with level `Low`. -/
theorem buildGeminiPayload_worked_example :
    buildGeminiPayload exampleEvents 120000 (88/100)
      = { sessionDurationSec := 120
          focusRatio := 88/100
          gazeIncidents := 1
          longestGazeAwaySec := 3
          faceAbsenceEvents := 1
          objectIncidents := 0
          tabSwitches := 1
          riskScore := 29 }
    ∧ (calculateRiskScore (buildRiskInput exampleEvents 120000)).level
        = .Low
    ∧ rawRiskScore (buildRiskInput exampleEvents 120000) = 29 := by
  have hga : countEventsByType exampleEvents ("GAZE_AWAY") = 1 := by decide
  have hfa : countEventsByType exampleEvents ("FACE_ABSENT") = 1 := by decide
  have hod : countEventsByType exampleEvents ("OBJECT_DETECTED") = 0 := by
    decide
  have hts : countEventsByType exampleEvents ("TAB_SWITCH") = 1 := by decide
  have hlong : longestDuration exampleEvents ("GAZE_AWAY") = 3000 := by
    norm_num [longestDuration, exampleEvents, List.foldl]
  have hinput : buildRiskInput exampleEvents 120000
      = ⟨1, 1, 0, 1, 120000⟩ := by
    simp [buildRiskInput, hga, hfa, hod, hts]
  refine ⟨?_, ?_, ?_⟩
  · simp only [buildGeminiPayload, hinput, hga, hfa, hod, hts, hlong]
    norm_num [GeminiPayload.mk.injEq, round_eq]
    decide
  · rw [hinput]; decide
  · rw [hinput]; decide
